import Mathlib

/-!
Shallow embedding of the UFT MCP server (`src/index.ts`) and the UFT MCP
extension keywords (`extension.js`).

JavaScript values flowing through the tool dispatcher and the keywords are
JSON-compatible: we model them with an inductive `Json` type.  A missing
property / `undefined` is modelled as `Option Json = none` (JSON itself has no
`undefined`; `JSON.stringify` drops object entries whose value is `undefined`,
which `mkObj` reproduces).  Exceptions thrown inside a handler are modelled
with `Except String`, carrying the runtime error message; the dispatcher's
`try/catch` is the `match` in `handleToolCall`.
-/

/-- JSON-compatible JavaScript values. -/
inductive Json where
  | null : Json
  | bool (b : Bool) : Json
  | num (n : Int) : Json
  | str (s : String) : Json
  | arr (elems : List Json) : Json
  | obj (fields : List (String × Json)) : Json
deriving Repr

mutual

/-- Boolean equality on `Json` (structural). -/
def beqJson : Json → Json → Bool
  | .null, .null => true
  | .bool a, .bool b => a == b
  | .num a, .num b => a == b
  | .str a, .str b => a == b
  | .arr xs, .arr ys => beqJsonList xs ys
  | .obj xs, .obj ys => beqJsonFields xs ys
  | _, _ => false

/-- Boolean equality on lists of `Json`. -/
def beqJsonList : List Json → List Json → Bool
  | [], [] => true
  | a :: as, b :: bs => beqJson a b && beqJsonList as bs
  | _, _ => false

/-- Boolean equality on object field lists. -/
def beqJsonFields : List (String × Json) → List (String × Json) → Bool
  | [], [] => true
  | (k1, v1) :: as, (k2, v2) :: bs => k1 == k2 && beqJson v1 v2 && beqJsonFields as bs
  | _, _ => false

end

mutual

theorem beqJson_iff_eq : ∀ (a b : Json), beqJson a b = true ↔ a = b
  | .null, b => by cases b <;> simp [beqJson]
  | .bool x, b => by cases b <;> simp [beqJson]
  | .num x, b => by cases b <;> simp [beqJson]
  | .str x, b => by cases b <;> simp [beqJson]
  | .arr xs, b => by
      cases b <;> simp [beqJson]
      exact beqJsonList_iff_eq xs _
  | .obj xs, b => by
      cases b <;> simp [beqJson]
      exact beqJsonFields_iff_eq xs _

theorem beqJsonList_iff_eq : ∀ (a b : List Json), beqJsonList a b = true ↔ a = b
  | [], b => by cases b <;> simp [beqJsonList]
  | a :: as, [] => by simp [beqJsonList]
  | a :: as, b :: bs => by
      simp [beqJsonList, beqJson_iff_eq a b, beqJsonList_iff_eq as bs]

theorem beqJsonFields_iff_eq : ∀ (a b : List (String × Json)), beqJsonFields a b = true ↔ a = b
  | [], b => by cases b <;> simp [beqJsonFields]
  | a :: as, [] => by simp [beqJsonFields]
  | (k1, v1) :: as, (k2, v2) :: bs => by
      simp [beqJsonFields, beqJson_iff_eq v1 v2, beqJsonFields_iff_eq as bs, and_assoc]

end

instance : DecidableEq Json := fun a b =>
  decidable_of_iff _ (beqJson_iff_eq a b)

/-- JavaScript truthiness of a value (`NaN` does not arise from JSON input). -/
def jsTruthy : Json → Bool
  | .null => false
  | .bool b => b
  | .num n => n != 0
  | .str s => s != ""
  | .arr _ => true
  | .obj _ => true

/-- Truthiness of a possibly-`undefined` value. -/
def jsTruthyOpt : Option Json → Bool
  | none => false
  | some v => jsTruthy v

mutual

/-- `String(v)` / template-literal conversion.  Arrays join their elements with
commas (`null` elements become empty), objects print as `[object Object]`. -/
def jsToString : Json → String
  | .null => "null"
  | .bool true => "true"
  | .bool false => "false"
  | .num n => toString n
  | .str s => s
  | .obj _ => "[object Object]"
  | .arr xs => jsJoinElems xs

/-- `Array.prototype.join(",")`: `null` elements become empty strings. -/
def jsJoinElems : List Json → String
  | [] => ""
  | a :: rest =>
    (match a with
     | .null => ""
     | v => jsToString v) ++
    (match rest with
     | [] => ""
     | _ => "," ++ jsJoinElems rest)

end

/-- Template-literal conversion of a possibly-`undefined` value. -/
def jsDisplay : Option Json → String
  | none => "undefined"
  | some v => jsToString v

/-- `v || d`: the left operand when truthy, otherwise the default. -/
def jsOrJ (v : Option Json) (d : Json) : Json :=
  if jsTruthyOpt v then v.getD d else d

/-- Property access on a non-null, defined value: objects by key, the built-in
`length` of arrays and strings; anything else is `undefined`.  (JSON values
never carry functions, so no other built-ins matter here.) -/
def jsGet : Json → String → Option Json
  | .obj fs, k => fs.lookup k
  | .arr xs, "length" => some (.num xs.length)
  | .str s, "length" => some (.num (s.length : Int))
  | _, _ => none

/-- Property access on a possibly-`undefined` value. -/
def jsGetOpt : Option Json → String → Option Json
  | none, _ => none
  | some v, k => jsGet v k

/-- Property access that models the `TypeError` thrown when the base value is
`undefined` or `null` (V8 message text). -/
def getMember : Option Json → String → Except String (Option Json)
  | none, k => .error ("Cannot read properties of undefined (reading '" ++ k ++ "')")
  | some .null, k => .error ("Cannot read properties of null (reading '" ++ k ++ "')")
  | some v, k => .ok (jsGet v k)

/-- Build the object that `JSON.stringify` would serialize: entries whose value
is `undefined` (`none`) are dropped. -/
def mkObj (fs : List (String × Option Json)) : Json :=
  Json.obj (fs.filterMap (fun p => p.2.map (fun v => (p.1, v))))

/-- Field lookup on an object value. -/
def lookupJ (k : String) : Json → Option Json
  | .obj fs => fs.lookup k
  | _ => none

/-- A value is an object. -/
def isObjJ : Json → Bool
  | .obj _ => true
  | _ => false

/-- The result mapping contains the field `k`. -/
def hasField (k : String) (j : Json) : Bool :=
  (lookupJ k j).isSome

/-- `Number(v)` for the values that reach the `status >= 400` comparison:
numbers are themselves, booleans coerce to 0/1, `null` to 0, strings and
arrays parse their string form (`none` = `NaN`; fractional literals, which
cannot be integer HTTP statuses, are treated as `NaN` too), objects are `NaN`. -/
def jsToNumber : Json → Option Int
  | .num n => some n
  | .bool b => some (cond b 1 0)
  | .null => some 0
  | .str s => if s.trim = "" then some 0 else s.trim.toInt?
  | .arr xs => (jsToString (.arr xs)).trim.toInt?
  | .obj _ => none

/-- The `status >= 400` comparison (`NaN` comparisons are false). -/
def jsGe400 (v : Option Json) : Bool :=
  match v with
  | none => false
  | some w =>
    match jsToNumber w with
    | some n => decide (n ≥ 400)
    | none => false

/-!
## MCP tool dispatcher (`src/index.ts`)

`handleToolCall(name, args)` takes the tool name and the argument mapping and
returns a JSON result (the value that the source serializes with
`JSON.stringify`).  The wall-clock timestamp produced by
`new Date().toISOString()` inside `generateTestScript` is an environment input,
passed in as the `now : String` parameter.

The handlers are stubs: they never perform I/O, and the only way one can throw
is by dereferencing a property of `undefined`/`null` (or calling `forEach` on a
non-array).  Arguments are cast, never validated against the declared input
schemas.
-/

/-- One generated script step: the body of the `forEach` callback in
`generateTestScript`; `a` is the array element (non-`null` here, the `null`
case throws before this is reached). -/
def actionLine (i : Nat) (a : Json) : String :=
  "' Step " ++ toString (i + 1) ++ ": " ++ jsDisplay (jsGet a "description") ++ "\n" ++
  jsDisplay (jsGet a "object") ++ "." ++ jsDisplay (jsGet a "type") ++
  (if jsTruthyOpt (jsGet a "value") then " \"" ++ jsDisplay (jsGet a "value") ++ "\"" else "") ++
  "\n\n"

/-- The `test.actions.forEach` loop of `generateTestScript`: accessing
`action.description` on a `null` element throws. -/
def scriptLines (i : Nat) : List Json → Except String String
  | [] => .ok ""
  | a :: rest =>
    match a with
    | .null => .error "Cannot read properties of null (reading 'description')"
    | _ =>
      match scriptLines (i + 1) rest with
      | .error e => .error e
      | .ok restS => .ok (actionLine i a ++ restS)

/-- `generateTestScript(test)`: script header plus one block per action.
Calling `test.actions.forEach` throws when `actions` is absent, `null`, or not
an array (JSON values are never functions). -/
def generateTestScript (now : String) (args : List (String × Json)) : Except String String :=
  match args.lookup "actions" with
  | some (.arr acts) =>
    match scriptLines 0 acts with
    | .error e => .error e
    | .ok body =>
      .ok ("' UFT Test Script: " ++ jsDisplay (args.lookup "testName") ++ "\n" ++
           "' Description: " ++ jsToString (jsOrJ (args.lookup "testDescription") (.str "N/A")) ++ "\n" ++
           "' Application: " ++ jsToString (jsOrJ (args.lookup "applicationUnderTest") (.str "N/A")) ++ "\n" ++
           "' Generated: " ++ now ++ "\n\n" ++ body)
  | none => .error "Cannot read properties of undefined (reading 'forEach')"
  | some .null => .error "Cannot read properties of null (reading 'forEach')"
  | some _ => .error "test.actions.forEach is not a function"

/-- `create_uft_test` handler.  The result-object literal evaluates
`generateTestScript(params)` before `params.actions.length`, so a bad `actions`
value throws from the `forEach` call first. -/
def createUftTest (now : String) (args : List (String × Json)) : Except String Json :=
  match generateTestScript now args with
  | .error e => .error e
  | .ok script =>
    match getMember (args.lookup "actions") "length" with
    | .error e => .error e
    | .ok len =>
      .ok (mkObj
        [("status", some (.str "success")),
         ("testName", args.lookup "testName"),
         ("message", some (.str ("UFT test '" ++ jsDisplay (args.lookup "testName") ++ "' created successfully"))),
         ("testScript", some (.str script)),
         ("actions", len)])

/-- `execute_uft_test` handler: canned counts, echoes `testPath`. -/
def executeUftTest (args : List (String × Json)) : Json :=
  mkObj
    [("status", some (.str "success")),
     ("testPath", args.lookup "testPath"),
     ("message", some (.str "Test execution completed")),
     ("executionTime", some (.str "45s")),
     ("passed", some (.num 8)),
     ("failed", some (.num 2)),
     ("warnings", some (.num 1))]

/-- `analyze_test_results` handler. -/
def analyzeTestResults (args : List (String × Json)) : Json :=
  mkObj
    [("status", some (.str "success")),
     ("resultPath", args.lookup "resultPath"),
     ("format", some (jsOrJ (args.lookup "reportFormat") (.str "summary"))),
     ("message", some (.str "Analysis complete")),
     ("summary", some (.obj
       [("totalTests", .num 10), ("passed", .num 8), ("failed", .num 2),
        ("passRate", .str "80%")]))]

/-- `manage_object_repository` handler. -/
def manageObjectRepository (args : List (String × Json)) : Json :=
  mkObj
    [("status", some (.str "success")),
     ("action", args.lookup "action"),
     ("message", some (.str ("Object repository " ++ jsDisplay (args.lookup "action") ++ " operation completed"))),
     ("objectName", some (jsOrJ (args.lookup "objectName") (.str "N/A")))]

/-- `generate_test_data` handler. -/
def generateTestData (args : List (String × Json)) : Json :=
  mkObj
    [("status", some (.str "success")),
     ("dataType", args.lookup "dataType"),
     ("recordsGenerated", args.lookup "recordCount"),
     ("outputPath", some (jsOrJ (args.lookup "outputPath")
        (.str ("generated_data." ++ jsDisplay (args.lookup "dataType"))))),
     ("message", some (.str ("Generated " ++ jsDisplay (args.lookup "recordCount") ++ " " ++
        jsDisplay (args.lookup "dataType") ++ " records")))]

/-- `capture_application_objects` handler. -/
def captureApplicationObjects (args : List (String × Json)) : Json :=
  mkObj
    [("status", some (.str "success")),
     ("application", args.lookup "applicationPath"),
     ("captureMode", some (jsOrJ (args.lookup "captureMode") (.str "automatic"))),
     ("objectsCaptured", some (.num 15)),
     ("message", some (.str "Application objects captured successfully"))]

/-- `create_test_suite` handler: `params.tests.length` throws when `tests` is
absent or `null`. -/
def createTestSuite (args : List (String × Json)) : Except String Json :=
  match getMember (args.lookup "tests") "length" with
  | .error e => .error e
  | .ok len =>
    .ok (mkObj
      [("status", some (.str "success")),
       ("suiteName", args.lookup "suiteName"),
       ("testsIncluded", len),
       ("executionOrder", some (jsOrJ (args.lookup "executionOrder") (.str "sequential"))),
       ("message", some (.str ("Test suite '" ++ jsDisplay (args.lookup "suiteName") ++
          "' created with " ++ jsDisplay len ++ " tests")))])

/-- `schedule_test_execution` handler: `params.schedule.type` throws when
`schedule` is absent or `null`. -/
def scheduleTestExecution (args : List (String × Json)) : Except String Json :=
  match getMember (args.lookup "schedule") "type" with
  | .error e => .error e
  | .ok ty =>
    match getMember (args.lookup "schedule") "time" with
    | .error e => .error e
    | .ok tm =>
      .ok (mkObj
        [("status", some (.str "success")),
         ("testOrSuite", args.lookup "testOrSuite"),
         ("scheduleType", ty),
         ("scheduledTime", tm),
         ("message", some (.str ("Test scheduled for " ++ jsDisplay ty ++
            " execution at " ++ jsDisplay tm)))])

/-- `generate_test_documentation` handler. -/
def generateTestDocumentation (args : List (String × Json)) : Json :=
  mkObj
    [("status", some (.str "success")),
     ("testPath", args.lookup "testPath"),
     ("documentationType", args.lookup "documentationType"),
     ("outputFormat", some (jsOrJ (args.lookup "outputFormat") (.str "html"))),
     ("message", some (.str (jsDisplay (args.lookup "documentationType") ++
        " documentation generated")))]

/-- `debug_test_failure` handler. -/
def debugTestFailure (args : List (String × Json)) : Json :=
  mkObj
    [("status", some (.str "success")),
     ("testPath", args.lookup "failedTestPath"),
     ("issuesFound", some (.num 3)),
     ("suggestions", some (.arr
       [.str "Object not found - verify object repository is up to date",
        .str "Timing issue detected - consider adding wait conditions",
        .str "Data mismatch - check test data inputs"])),
     ("message", some (.str "Failure analysis complete with 3 suggestions"))]

/-- The `switch` inside `handleToolCall`: route by exact name; the default
branch throws `Unknown tool: <name>`. -/
def dispatch (now : String) (name : String) (args : List (String × Json)) : Except String Json :=
  match name with
  | "create_uft_test" => createUftTest now args
  | "execute_uft_test" => .ok (executeUftTest args)
  | "analyze_test_results" => .ok (analyzeTestResults args)
  | "manage_object_repository" => .ok (manageObjectRepository args)
  | "generate_test_data" => .ok (generateTestData args)
  | "capture_application_objects" => .ok (captureApplicationObjects args)
  | "create_test_suite" => createTestSuite args
  | "schedule_test_execution" => scheduleTestExecution args
  | "generate_test_documentation" => .ok (generateTestDocumentation args)
  | "debug_test_failure" => .ok (debugTestFailure args)
  | _ => .error ("Unknown tool: " ++ name)

/-- `handleToolCall`: the `try/catch` around the `switch` converts any thrown
error into the uniform `{status:"error", message}` shape. -/
def handleToolCall (now : String) (name : String) (args : List (String × Json)) : Json :=
  match dispatch now name args with
  | .ok result => result
  | .error msg => Json.obj [("status", .str "error"), ("message", .str msg)]

/-!
## Tool catalog (`UFT_TOOLS` in `src/index.ts`)

Each catalog entry declares a name, a description and a JSON-schema input
contract.  The claims only consult the required top-level fields and their
declared types, so each required field is recorded together with the schema
type (including `enum` constraints) that the source declares for it.
-/

/-- The JSON-schema types occurring in the catalog's property declarations. -/
inductive SchemaTy where
  | sString : SchemaTy
  | sNumber : SchemaTy
  | sBoolean : SchemaTy
  | sObject : SchemaTy
  | sArrayOf (elem : SchemaTy) : SchemaTy
  | sEnum (vals : List String) : SchemaTy

/-- A value conforms to a schema type. -/
def typeOk : SchemaTy → Json → Bool
  | .sString, .str _ => true
  | .sNumber, .num _ => true
  | .sBoolean, .bool _ => true
  | .sObject, .obj _ => true
  | .sArrayOf t, .arr xs => xs.all (fun v => typeOk t v)
  | .sEnum vs, .str s => vs.contains s
  | _, _ => false

/-- A catalog entry: tool name, description, and the declared required
top-level fields with their schema types. -/
structure ToolDef where
  name : String
  description : String
  required : List (String × SchemaTy)

/-- The static catalog of ten tools. -/
def UFT_TOOLS : List ToolDef :=
  [⟨"create_uft_test",
    "Create a new UFT test script with specified actions and verifications",
    [("testName", .sString), ("actions", .sArrayOf .sObject)]⟩,
   ⟨"execute_uft_test",
    "Execute UFT test(s) and return results",
    [("testPath", .sString)]⟩,
   ⟨"analyze_test_results",
    "Analyze UFT test execution results and generate reports",
    [("resultPath", .sString)]⟩,
   ⟨"manage_object_repository",
    "Add, update, or query objects in UFT Object Repository",
    [("action", .sEnum ["add", "update", "query", "delete", "list"])]⟩,
   ⟨"generate_test_data",
    "Generate test data for UFT data-driven testing",
    [("dataType", .sEnum ["excel", "csv", "xml", "database"]),
     ("schema", .sObject), ("recordCount", .sNumber)]⟩,
   ⟨"capture_application_objects",
    "Capture and identify objects from running applications",
    [("applicationPath", .sString)]⟩,
   ⟨"create_test_suite",
    "Create and organize UFT test suites",
    [("suiteName", .sString), ("tests", .sArrayOf .sString)]⟩,
   ⟨"schedule_test_execution",
    "Schedule UFT tests for automated execution",
    [("testOrSuite", .sString), ("schedule", .sObject)]⟩,
   ⟨"generate_test_documentation",
    "Generate documentation for UFT tests and test suites",
    [("testPath", .sString),
     ("documentationType", .sEnum ["detailed", "summary", "technical", "user-guide"])]⟩,
   ⟨"debug_test_failure",
    "Analyze failed test steps and suggest fixes",
    [("failedTestPath", .sString)]⟩]

/-- All of the tool's declared required fields are present and conform to
their declared schema types. -/
def requiredOk (t : ToolDef) (args : List (String × Json)) : Bool :=
  t.required.all (fun p =>
    match args.lookup p.1 with
    | some v => typeOk p.2 v
    | none => false)

/-- The argument mapping omits the required field `f` of tool `t`. -/
def omitsField (args : List (String × Json)) (f : String) : Bool :=
  (args.lookup f).isNone

/-!
## UFT keyword adapter (`extension.js`)

Each registered keyword receives a loosely-typed argument value (possibly
`undefined`), reads and possibly replaces the single mutable
`MCPExtension.currentContext` slot, reports to `UFT.Reporter.ReportEvent`, and
returns a result mapping.  `currentContext` is `Option Json`: `none` stands
for the initial `undefined` and for the `null` written by the test-start
handler.  The environment inputs `new Date().toISOString()` and
`Math.random().toString(36).substr(2, 9)` are the parameters `now` and `rand`.
A report is `(status, title, details)` with the details kept as the structured
value the source passes to `JSON.stringify` (or a plain string).
-/

/-- One `UFT.Reporter.ReportEvent(status, title, details)` call. -/
structure Report where
  status : String
  title : String
  details : Json
deriving Repr

/-- Result of one keyword invocation: returned value, context slot after the
call, reports emitted. -/
structure KwOutcome where
  ret : Json
  ctx : Option Json
  reports : List Report
deriving Repr

/-- `MCP_Ping`. -/
def MCP_Ping (args : Option Json) (ctx : Option Json) (now : String) : KwOutcome :=
  let message : Json :=
    if jsTruthyOpt args && jsTruthyOpt (jsGetOpt args "message") then
      (jsGetOpt args "message").getD .null
    else .str "Ping successful"
  { ret := .obj [("success", .bool true), ("timestamp", .str now)],
    ctx := ctx,
    reports := [⟨"Done", "MCP_Ping",
      mkObj [("message", some message), ("timestamp", some (.str now)), ("args", args)]⟩] }

/-- `MCP_SendRequest`. -/
def MCP_SendRequest (args : Option Json) (ctx : Option Json) (now rand : String) : KwOutcome :=
  if !(jsTruthyOpt args) || !(jsTruthyOpt (jsGetOpt args "endpoint")) then
    { ret := .obj [("success", .bool false), ("error", .str "Missing endpoint")],
      ctx := ctx,
      reports := [⟨"Failed", "MCP_SendRequest", .str "Missing required parameter: endpoint"⟩] }
  else
    let request : Json := .obj
      [("endpoint", (jsGetOpt args "endpoint").getD .null),
       ("method", jsOrJ (jsGetOpt args "method") (.str "POST")),
       ("data", jsOrJ (jsGetOpt args "data") (.obj [])),
       ("timestamp", .str now)]
    { ret := .obj [("success", .bool true), ("requestId", .str rand), ("request", request)],
      ctx := ctx,
      reports := [⟨"Done", "MCP_SendRequest", request⟩] }

/-- `MCP_ValidateResponse`.  On the validation path the returned mapping is the
`validationResult` object itself: `{isValid, errors, warnings}`. -/
def MCP_ValidateResponse (args : Option Json) (ctx : Option Json) : KwOutcome :=
  if !(jsTruthyOpt args) || !(jsTruthyOpt (jsGetOpt args "response")) then
    { ret := .obj [("success", .bool false), ("error", .str "Missing response")],
      ctx := ctx,
      reports := [⟨"Failed", "MCP_ValidateResponse", .str "Missing required parameter: response"⟩] }
  else
    let st := jsGetOpt (jsGetOpt args "response") "status"
    let errs : List Json :=
      (if !(jsTruthyOpt st) then [.str "Missing status field"] else []) ++
      (if jsTruthyOpt st && jsGe400 st then
        [.str ("Error status code: " ++ jsDisplay st)] else [])
    let valid : Bool := !(!(jsTruthyOpt st)) && !(jsTruthyOpt st && jsGe400 st)
    let validationResult : Json := .obj
      [("isValid", .bool valid), ("errors", .arr errs), ("warnings", .arr [])]
    { ret := validationResult,
      ctx := ctx,
      reports := [⟨if valid then "Done" else "Warning", "MCP_ValidateResponse", validationResult⟩] }

/-- `MCP_SetContext`. -/
def MCP_SetContext (args : Option Json) (ctx : Option Json) (now : String) : KwOutcome :=
  if !(jsTruthyOpt args) || !(jsTruthyOpt (jsGetOpt args "context")) then
    { ret := .obj [("success", .bool false), ("error", .str "Missing context")],
      ctx := ctx,
      reports := [⟨"Failed", "MCP_SetContext", .str "Missing required parameter: context"⟩] }
  else
    let c := (jsGetOpt args "context").getD .null
    { ret := .obj [("success", .bool true), ("context", c)],
      ctx := some c,
      reports := [⟨"Done", "MCP_SetContext", .obj
        [("contextId", jsOrJ (jsGet c "id") (.str "default")),
         ("contextType", jsOrJ (jsGet c "type") (.str "unknown")),
         ("timestamp", .str now)]⟩] }

/-- The sentinel context `{id:'none', type:'empty'}`. -/
def emptyContext : Json := .obj [("id", .str "none"), ("type", .str "empty")]

/-- `MCP_GetContext` (takes no arguments). -/
def MCP_GetContext (ctx : Option Json) : KwOutcome :=
  let context := jsOrJ ctx emptyContext
  { ret := .obj [("success", .bool true), ("context", context)],
    ctx := ctx,
    reports := [⟨"Done", "MCP_GetContext", context⟩] }

/-- `MCP_ExecutePrompt`. -/
def MCP_ExecutePrompt (args : Option Json) (ctx : Option Json) (now rand : String) : KwOutcome :=
  if !(jsTruthyOpt args) || !(jsTruthyOpt (jsGetOpt args "prompt")) then
    { ret := .obj [("success", .bool false), ("error", .str "Missing prompt")],
      ctx := ctx,
      reports := [⟨"Failed", "MCP_ExecutePrompt", .str "Missing required parameter: prompt"⟩] }
  else
    let execution : Json := .obj
      [("prompt", (jsGetOpt args "prompt").getD .null),
       ("parameters", jsOrJ (jsGetOpt args "parameters") (.obj [])),
       ("context", jsOrJ ctx (.obj [])),
       ("timestamp", .str now),
       ("executionId", .str rand)]
    { ret := .obj [("success", .bool true), ("executionId", .str rand),
        ("result", .obj [("output", .str "Prompt executed successfully"),
          ("metadata", execution)])],
      ctx := ctx,
      reports := [⟨"Done", "MCP_ExecutePrompt", execution⟩] }

/-- The `OnTestStart` handler: `MCPExtension.currentContext = null`. -/
def onTestStart (_ctx : Option Json) : Option Json := none

/-!
## Keyword-call traces

To speak about "a run in which `MCP_SetContext` was not yet called", keyword
invocations are abstracted into a call trace acting on the context slot.
-/

/-- One keyword invocation (with its environment inputs). -/
inductive KwCall where
  | ping (args : Option Json) (now : String) : KwCall
  | sendRequest (args : Option Json) (now rand : String) : KwCall
  | validateResponse (args : Option Json) : KwCall
  | setContext (args : Option Json) (now : String) : KwCall
  | getContext : KwCall
  | executePrompt (args : Option Json) (now rand : String) : KwCall

/-- The call is an `MCP_SetContext` invocation. -/
def KwCall.isSetContext : KwCall → Bool
  | .setContext _ _ => true
  | _ => false

/-- Context slot after one keyword invocation. -/
def stepCtx (ctx : Option Json) : KwCall → Option Json
  | .ping args now => (MCP_Ping args ctx now).ctx
  | .sendRequest args now rand => (MCP_SendRequest args ctx now rand).ctx
  | .validateResponse args => (MCP_ValidateResponse args ctx).ctx
  | .setContext args now => (MCP_SetContext args ctx now).ctx
  | .getContext => (MCP_GetContext ctx).ctx
  | .executePrompt args now rand => (MCP_ExecutePrompt args ctx now rand).ctx

/-- Context slot after a sequence of keyword invocations. -/
def runCtx (ctx : Option Json) : List KwCall → Option Json
  | [] => ctx
  | c :: rest => runCtx (stepCtx ctx c) rest

/-!
## Proof infrastructure
-/

/-- Looking a key up in a serialized object misses when no entry carries it. -/
theorem lookupJ_mkObj_none (k : String) (l : List (String × Option Json))
    (h : ∀ p ∈ l, p.1 ≠ k) : lookupJ k (mkObj l) = none := by
  induction l with
  | nil => rfl
  | cons p rest ih =>
    obtain ⟨k', ov⟩ := p
    have hk : (k == k') = false := by
      rw [beq_eq_false_iff_ne]
      exact fun e => h (k', ov) (by simp) (by simp [e.symm])
    cases ov with
    | none =>
      simp only [mkObj, List.filterMap_cons, Option.map_none']
      exact ih (fun p hp => h p (by simp [hp]))
    | some v =>
      simp only [mkObj, List.filterMap_cons, Option.map_some']
      simp only [lookupJ, List.lookup, hk]
      exact ih (fun p hp => h p (by simp [hp]))

/-- With pairwise-distinct keys, looking a key up in the serialized object is
looking it up in the entry list (`undefined` entries having been dropped). -/
theorem lookupJ_mkObj (k : String) (l : List (String × Option Json))
    (hnd : (l.map Prod.fst).Nodup) :
    lookupJ k (mkObj l) = (l.lookup k).bind id := by
  induction l with
  | nil => simp [mkObj, lookupJ, List.lookup]
  | cons p rest ih =>
    obtain ⟨k', ov⟩ := p
    simp only [List.map_cons, List.nodup_cons] at hnd
    cases hbeq : k == k' with
    | true =>
      have hke : k = k' := eq_of_beq hbeq
      cases ov with
      | none =>
        simp only [mkObj, List.filterMap_cons, Option.map_none']
        simp only [List.lookup, hbeq, Option.bind]
        subst hke
        exact lookupJ_mkObj_none k rest
          (fun p hp => fun e => hnd.1 (e ▸ List.mem_map_of_mem Prod.fst hp))
      | some v =>
        simp only [mkObj, List.filterMap_cons, Option.map_some']
        simp only [lookupJ, List.lookup, hbeq, Option.bind]
        rfl
    | false =>
      cases ov with
      | none =>
        simp only [mkObj, List.filterMap_cons, Option.map_none']
        simp only [List.lookup, hbeq]
        exact ih hnd.2
      | some v =>
        simp only [mkObj, List.filterMap_cons, Option.map_some']
        simp only [lookupJ, List.lookup, hbeq]
        simpa only [lookupJ] using ih hnd.2

/-- Remove a field from a result object (used to compare results "up to" one
echoed field). -/
def removeField (j : Json) (k : String) : Json :=
  match j with
  | .obj fs => .obj (fs.filter (fun p => p.1 != k))
  | v => v

/-- The mapping carries a boolean under the field `k`. -/
def hasBoolField (k : String) (j : Json) : Bool :=
  match lookupJ k j with
  | some (.bool _) => true
  | _ => false

/-- Pure handlers and `.ok`-path handlers all emit `status:"success"` plus a
`message`; packaged per handler for reuse below. -/
def okShape (v : Json) : Prop :=
  isObjJ v = true ∧ lookupJ "status" v = some (.str "success") ∧
    (lookupJ "message" v).isSome = true

theorem okShape_executeUftTest (args : List (String × Json)) : okShape (executeUftTest args) :=
  ⟨by simp [executeUftTest, mkObj, isObjJ],
   by rw [executeUftTest, lookupJ_mkObj _ _ (by simp)]; rfl,
   by rw [executeUftTest, lookupJ_mkObj _ _ (by simp)]; rfl⟩

theorem okShape_analyzeTestResults (args : List (String × Json)) : okShape (analyzeTestResults args) :=
  ⟨by simp [analyzeTestResults, mkObj, isObjJ],
   by rw [analyzeTestResults, lookupJ_mkObj _ _ (by simp)]; rfl,
   by rw [analyzeTestResults, lookupJ_mkObj _ _ (by simp)]; rfl⟩

theorem okShape_manageObjectRepository (args : List (String × Json)) : okShape (manageObjectRepository args) :=
  ⟨by simp [manageObjectRepository, mkObj, isObjJ],
   by rw [manageObjectRepository, lookupJ_mkObj _ _ (by simp)]; rfl,
   by rw [manageObjectRepository, lookupJ_mkObj _ _ (by simp)]; rfl⟩

theorem okShape_generateTestData (args : List (String × Json)) : okShape (generateTestData args) :=
  ⟨by simp [generateTestData, mkObj, isObjJ],
   by rw [generateTestData, lookupJ_mkObj _ _ (by simp)]; rfl,
   by rw [generateTestData, lookupJ_mkObj _ _ (by simp)]; rfl⟩

theorem okShape_captureApplicationObjects (args : List (String × Json)) : okShape (captureApplicationObjects args) :=
  ⟨by simp [captureApplicationObjects, mkObj, isObjJ],
   by rw [captureApplicationObjects, lookupJ_mkObj _ _ (by simp)]; rfl,
   by rw [captureApplicationObjects, lookupJ_mkObj _ _ (by simp)]; rfl⟩

theorem okShape_generateTestDocumentation (args : List (String × Json)) : okShape (generateTestDocumentation args) :=
  ⟨by simp [generateTestDocumentation, mkObj, isObjJ],
   by rw [generateTestDocumentation, lookupJ_mkObj _ _ (by simp)]; rfl,
   by rw [generateTestDocumentation, lookupJ_mkObj _ _ (by simp)]; rfl⟩

theorem okShape_debugTestFailure (args : List (String × Json)) : okShape (debugTestFailure args) :=
  ⟨by simp [debugTestFailure, mkObj, isObjJ],
   by rw [debugTestFailure, lookupJ_mkObj _ _ (by simp)]; rfl,
   by rw [debugTestFailure, lookupJ_mkObj _ _ (by simp)]; rfl⟩

theorem okShape_createUftTest (now : String) (args : List (String × Json)) (v : Json)
    (h : createUftTest now args = .ok v) : okShape v := by
  unfold createUftTest at h
  split at h
  · exact absurd h (by simp)
  · split at h
    · exact absurd h (by simp)
    · injection h with h
      subst h
      exact ⟨by simp [mkObj, isObjJ],
        by rw [lookupJ_mkObj _ _ (by simp)]; rfl,
        by rw [lookupJ_mkObj _ _ (by simp)]; rfl⟩

theorem okShape_createTestSuite (args : List (String × Json)) (v : Json)
    (h : createTestSuite args = .ok v) : okShape v := by
  unfold createTestSuite at h
  split at h
  · exact absurd h (by simp)
  · injection h with h
    subst h
    exact ⟨by simp [mkObj, isObjJ],
      by rw [lookupJ_mkObj _ _ (by simp)]; rfl,
      by rw [lookupJ_mkObj _ _ (by simp)]; rfl⟩

theorem okShape_scheduleTestExecution (args : List (String × Json)) (v : Json)
    (h : scheduleTestExecution args = .ok v) : okShape v := by
  unfold scheduleTestExecution at h
  split at h
  · exact absurd h (by simp)
  · split at h
    · exact absurd h (by simp)
    · injection h with h
      subst h
      exact ⟨by simp [mkObj, isObjJ],
        by rw [lookupJ_mkObj _ _ (by simp)]; rfl,
        by rw [lookupJ_mkObj _ _ (by simp)]; rfl⟩

/-- Every `.ok` result of the dispatch `switch` is a success-shaped object. -/
theorem dispatch_ok_shape (now name : String) (args : List (String × Json)) (v : Json)
    (h : dispatch now name args = .ok v) : okShape v := by
  unfold dispatch at h
  split at h
  · exact okShape_createUftTest now args v h
  · injection h with h; subst h; exact okShape_executeUftTest args
  · injection h with h; subst h; exact okShape_analyzeTestResults args
  · injection h with h; subst h; exact okShape_manageObjectRepository args
  · injection h with h; subst h; exact okShape_generateTestData args
  · injection h with h; subst h; exact okShape_captureApplicationObjects args
  · exact okShape_createTestSuite args v h
  · exact okShape_scheduleTestExecution args v h
  · injection h with h; subst h; exact okShape_generateTestDocumentation args
  · injection h with h; subst h; exact okShape_debugTestFailure args
  · exact absurd h (by simp)

/-!
## Claim theorems
-/

/-- C2: For every tool name and every argument mapping, the dispatcher's
result is structured data — an object carrying at minimum a `status` field
(whose value is `"success"` or `"error"`) and a `message` field — on the
success path and the error path alike.  `handleToolCall` is a total function
into `Json`, so no handler failure escapes the dispatch boundary: the
`try/catch` (the `match` on `dispatch`) converts every thrown error into the
same shape. -/
theorem toolResult_uniform_shape (now name : String) (args : List (String × Json)) :
    isObjJ (handleToolCall now name args) = true ∧
    (lookupJ "status" (handleToolCall now name args) = some (.str "success") ∨
     lookupJ "status" (handleToolCall now name args) = some (.str "error")) ∧
    (lookupJ "message" (handleToolCall now name args)).isSome = true := by
  cases hd : dispatch now name args with
  | ok v =>
    obtain ⟨h1, h2, h3⟩ := dispatch_ok_shape now name args v hd
    unfold handleToolCall
    rw [hd]
    exact ⟨h1, Or.inl h2, h3⟩
  | error m =>
    unfold handleToolCall
    rw [hd]
    exact ⟨rfl, Or.inr rfl, rfl⟩

/-- C3: Invoking any name outside the ten-tool catalog returns
`status:"error"` with message exactly `Unknown tool: <name>`. -/
theorem unknown_tool_error (now name : String) (args : List (String × Json))
    (h : name ∉ UFT_TOOLS.map ToolDef.name) :
    handleToolCall now name args =
      Json.obj [("status", .str "error"), ("message", .str ("Unknown tool: " ++ name))] := by
  simp only [UFT_TOOLS, List.map_cons, List.map_nil, List.mem_cons, List.not_mem_nil,
    or_false, not_or] at h
  unfold handleToolCall dispatch
  simp [h.1, h.2.1, h.2.2.1, h.2.2.2.1, h.2.2.2.2.1, h.2.2.2.2.2.1, h.2.2.2.2.2.2.1,
    h.2.2.2.2.2.2.2.1, h.2.2.2.2.2.2.2.2.1, h.2.2.2.2.2.2.2.2.2]

/-- Witness for C3 at the concrete name `"nonexistent_tool"`. -/
theorem unknown_tool_error_witness :
    handleToolCall "2025-01-01T00:00:00.000Z" "nonexistent_tool" [] =
      Json.obj [("status", .str "error"),
                ("message", .str ("Unknown tool: " ++ "nonexistent_tool"))] :=
  unknown_tool_error "2025-01-01T00:00:00.000Z" "nonexistent_tool" [] (by decide)

/-- C6: `execute_uft_test` is a stub: any two invocations whose mappings carry
a `testPath` field return results that are identical except for the echoed
`testPath`, with `executionTime` `"45s"`, `passed` 8, `failed` 2 and
`warnings` 1, independent of `parameters` and `resultPath`. -/
theorem execute_uft_test_canned (now : String) (a1 a2 : List (String × Json)) (v1 v2 : Json)
    (h1 : a1.lookup "testPath" = some v1) (h2 : a2.lookup "testPath" = some v2) :
    removeField (handleToolCall now "execute_uft_test" a1) "testPath" =
      removeField (handleToolCall now "execute_uft_test" a2) "testPath" ∧
    lookupJ "testPath" (handleToolCall now "execute_uft_test" a1) = some v1 ∧
    lookupJ "testPath" (handleToolCall now "execute_uft_test" a2) = some v2 ∧
    lookupJ "executionTime" (handleToolCall now "execute_uft_test" a1) = some (.str "45s") ∧
    lookupJ "passed" (handleToolCall now "execute_uft_test" a1) = some (.num 8) ∧
    lookupJ "failed" (handleToolCall now "execute_uft_test" a1) = some (.num 2) ∧
    lookupJ "warnings" (handleToolCall now "execute_uft_test" a1) = some (.num 1) := by
  refine ⟨?_, ?_, ?_, ?_, ?_, ?_, ?_⟩
  · show removeField (executeUftTest a1) "testPath" = removeField (executeUftTest a2) "testPath"
    unfold executeUftTest
    rw [h1, h2]
    rfl
  · show lookupJ "testPath" (executeUftTest a1) = some v1
    rw [executeUftTest, lookupJ_mkObj _ _ (by simp), h1]
    rfl
  · show lookupJ "testPath" (executeUftTest a2) = some v2
    rw [executeUftTest, lookupJ_mkObj _ _ (by simp), h2]
    rfl
  · show lookupJ "executionTime" (executeUftTest a1) = some (.str "45s")
    rw [executeUftTest, lookupJ_mkObj _ _ (by simp)]
    rfl
  · show lookupJ "passed" (executeUftTest a1) = some (.num 8)
    rw [executeUftTest, lookupJ_mkObj _ _ (by simp)]
    rfl
  · show lookupJ "failed" (executeUftTest a1) = some (.num 2)
    rw [executeUftTest, lookupJ_mkObj _ _ (by simp)]
    rfl
  · show lookupJ "warnings" (executeUftTest a1) = some (.num 1)
    rw [executeUftTest, lookupJ_mkObj _ _ (by simp)]
    rfl

/-- Witness for C6 at two concrete argument mappings with different
`parameters` and `resultPath`. -/
theorem execute_uft_test_canned_witness :
    removeField (handleToolCall "T" "execute_uft_test"
        [("testPath", .str "C:/t1"), ("parameters", .obj [("a", .num 1)])]) "testPath" =
      removeField (handleToolCall "T" "execute_uft_test"
        [("testPath", .str "C:/t2"), ("resultPath", .str "R")]) "testPath" ∧
    lookupJ "testPath" (handleToolCall "T" "execute_uft_test"
        [("testPath", .str "C:/t1"), ("parameters", .obj [("a", .num 1)])]) =
      some (.str "C:/t1") ∧
    lookupJ "testPath" (handleToolCall "T" "execute_uft_test"
        [("testPath", .str "C:/t2"), ("resultPath", .str "R")]) = some (.str "C:/t2") ∧
    lookupJ "executionTime" (handleToolCall "T" "execute_uft_test"
        [("testPath", .str "C:/t1"), ("parameters", .obj [("a", .num 1)])]) = some (.str "45s") ∧
    lookupJ "passed" (handleToolCall "T" "execute_uft_test"
        [("testPath", .str "C:/t1"), ("parameters", .obj [("a", .num 1)])]) = some (.num 8) ∧
    lookupJ "failed" (handleToolCall "T" "execute_uft_test"
        [("testPath", .str "C:/t1"), ("parameters", .obj [("a", .num 1)])]) = some (.num 2) ∧
    lookupJ "warnings" (handleToolCall "T" "execute_uft_test"
        [("testPath", .str "C:/t1"), ("parameters", .obj [("a", .num 1)])]) = some (.num 1) :=
  execute_uft_test_canned "T"
    [("testPath", .str "C:/t1"), ("parameters", .obj [("a", .num 1)])]
    [("testPath", .str "C:/t2"), ("resultPath", .str "R")]
    (.str "C:/t1") (.str "C:/t2") rfl rfl

/-- C9: the concrete `create_uft_test` example — `LoginTest` with one click
action — succeeds with `actions` count 1 and a non-empty generated script
containing `"LoginTest"` (for every timestamp the environment supplies). -/
theorem create_uft_test_login_example (now : String) :
    lookupJ "status" (handleToolCall now "create_uft_test"
      [("testName", .str "LoginTest"),
       ("actions", .arr [.obj [("type", .str "click"), ("object", .str "Btn"),
         ("description", .str "click")]])]) = some (.str "success") ∧
    lookupJ "actions" (handleToolCall now "create_uft_test"
      [("testName", .str "LoginTest"),
       ("actions", .arr [.obj [("type", .str "click"), ("object", .str "Btn"),
         ("description", .str "click")]])]) = some (.num 1) ∧
    ∃ s : String,
      lookupJ "testScript" (handleToolCall now "create_uft_test"
        [("testName", .str "LoginTest"),
         ("actions", .arr [.obj [("type", .str "click"), ("object", .str "Btn"),
           ("description", .str "click")]])]) = some (.str s) ∧
      s ≠ "" ∧ ∃ pre post : String, s = pre ++ ("LoginTest" ++ post) := by
  refine ⟨rfl, rfl,
    "' UFT Test Script: LoginTest\n' Description: N/A\n' Application: N/A\n' Generated: " ++
      now ++ "\n\n' Step 1: click\nBtn.click\n\n", ?_, ?_, ?_⟩
  · show some (Json.str _) = _
    congr 2
    apply String.ext
    simp [String.data_append, jsDisplay, jsToString, jsOrJ, jsTruthyOpt, jsTruthy,
      List.lookup, jsJoinElems, actionLine, jsGet]
    decide
  · intro h
    have := congrArg String.data h
    simp [String.data_append] at this
  · exact ⟨"' UFT Test Script: ",
      "\n' Description: N/A\n' Application: N/A\n' Generated: " ++ now ++
        "\n\n' Step 1: click\nBtn.click\n\n",
      by apply String.ext; simp [String.data_append]⟩

/-- Script generation cannot throw when every action element is an object. -/
theorem scriptLines_ok (l : List Json) (i : Nat) (h : ∀ a ∈ l, isObjJ a = true) :
    ∃ s, scriptLines i l = .ok s := by
  induction l generalizing i with
  | nil => exact ⟨"", rfl⟩
  | cons a rest ih =>
    obtain ⟨s, hs⟩ := ih (i + 1) (fun x hx => h x (by simp [hx]))
    have ha := h a (by simp)
    cases a with
    | obj fs =>
      refine ⟨actionLine i (.obj fs) ++ s, ?_⟩
      simp only [scriptLines]
      rw [hs]
    | null => simp [isObjJ] at ha
    | bool b => simp [isObjJ] at ha
    | num n => simp [isObjJ] at ha
    | str t => simp [isObjJ] at ha
    | arr xs => simp [isObjJ] at ha

/-- `create_uft_test` succeeds whenever `actions` is an array of objects
(whatever the other arguments). -/
theorem createUftTest_success (now : String) (args : List (String × Json)) (acts : List Json)
    (ha : args.lookup "actions" = some (.arr acts)) (hobj : ∀ a ∈ acts, isObjJ a = true) :
    lookupJ "status" (handleToolCall now "create_uft_test" args) = some (.str "success") := by
  obtain ⟨s, hs⟩ := scriptLines_ok acts 0 hobj
  show lookupJ "status" (match dispatch now "create_uft_test" args with
    | .ok r => r
    | .error m => Json.obj [("status", .str "error"), ("message", .str m)]) = _
  have hd : dispatch now "create_uft_test" args = createUftTest now args := rfl
  rw [hd]
  unfold createUftTest generateTestScript
  rw [ha]
  simp only [hs, getMember]
  rw [lookupJ_mkObj _ _ (by simp)]
  rfl

/-- `create_test_suite` succeeds whenever `tests` is an array (whatever the
other arguments). -/
theorem createTestSuite_success (now : String) (args : List (String × Json)) (xs : List Json)
    (ht : args.lookup "tests" = some (.arr xs)) :
    lookupJ "status" (handleToolCall now "create_test_suite" args) = some (.str "success") := by
  show lookupJ "status" (match dispatch now "create_test_suite" args with
    | .ok r => r
    | .error m => Json.obj [("status", .str "error"), ("message", .str m)]) = _
  have hd : dispatch now "create_test_suite" args = createTestSuite args := rfl
  rw [hd]
  unfold createTestSuite
  rw [ht]
  simp only [getMember]
  rw [lookupJ_mkObj _ _ (by simp)]
  rfl

/-- `schedule_test_execution` succeeds whenever `schedule` is an object
(whatever the other arguments). -/
theorem scheduleTestExecution_success (now : String) (args : List (String × Json))
    (fs : List (String × Json)) (hs : args.lookup "schedule" = some (.obj fs)) :
    lookupJ "status" (handleToolCall now "schedule_test_execution" args) = some (.str "success") := by
  show lookupJ "status" (match dispatch now "schedule_test_execution" args with
    | .ok r => r
    | .error m => Json.obj [("status", .str "error"), ("message", .str m)]) = _
  have hd : dispatch now "schedule_test_execution" args = scheduleTestExecution args := rfl
  rw [hd]
  unfold scheduleTestExecution
  rw [hs]
  simp only [getMember]
  rw [lookupJ_mkObj _ _ (by simp)]
  rfl

/-- The seven tools whose handlers never dereference an argument succeed on
every argument mapping. -/
theorem pure_tool_status_success (now name : String) (args : List (String × Json))
    (h : name ∈ ["execute_uft_test", "analyze_test_results", "manage_object_repository",
      "generate_test_data", "capture_application_objects", "generate_test_documentation",
      "debug_test_failure"]) :
    lookupJ "status" (handleToolCall now name args) = some (.str "success") := by
  simp only [List.mem_cons, List.not_mem_nil, or_false] at h
  rcases h with h|h|h|h|h|h|h <;> subst h
  · exact (okShape_executeUftTest args).2.1
  · exact (okShape_analyzeTestResults args).2.1
  · exact (okShape_manageObjectRepository args).2.1
  · exact (okShape_generateTestData args).2.1
  · exact (okShape_captureApplicationObjects args).2.1
  · exact (okShape_generateTestDocumentation args).2.1
  · exact (okShape_debugTestFailure args).2.1

/-- C4: for every tool in the catalog, an argument mapping in which all of the
tool's declared required fields are present with their declared schema types
yields `status:"success"`. -/
theorem required_ok_implies_success (now : String) (t : ToolDef) (ht : t ∈ UFT_TOOLS)
    (args : List (String × Json)) (hr : requiredOk t args = true) :
    lookupJ "status" (handleToolCall now t.name args) = some (.str "success") := by
  simp only [UFT_TOOLS, List.mem_cons, List.not_mem_nil, or_false] at ht
  rcases ht with h|h|h|h|h|h|h|h|h|h <;> subst h <;>
    simp only [requiredOk, List.all_cons, List.all_nil, Bool.and_eq_true, and_true] at hr
  · -- create_uft_test
    obtain ⟨-, hacts⟩ := hr
    rcases hw : args.lookup "actions" with - | w <;> rw [hw] at hacts
    · exact absurd hacts (by simp)
    · cases w with
      | arr xs =>
        refine createUftTest_success now args xs hw (fun a hax => ?_)
        simp only [typeOk, List.all_eq_true] at hacts
        have := hacts a hax
        cases a <;> simp_all [typeOk, isObjJ]
      | null => exact absurd hacts (by simp [typeOk])
      | bool b => exact absurd hacts (by simp [typeOk])
      | num n => exact absurd hacts (by simp [typeOk])
      | str smm => exact absurd hacts (by simp [typeOk])
      | obj fs => exact absurd hacts (by simp [typeOk])
  · exact pure_tool_status_success now "execute_uft_test" args (by simp)
  · exact pure_tool_status_success now "analyze_test_results" args (by simp)
  · exact pure_tool_status_success now "manage_object_repository" args (by simp)
  · exact pure_tool_status_success now "generate_test_data" args (by simp)
  · exact pure_tool_status_success now "capture_application_objects" args (by simp)
  · -- create_test_suite
    obtain ⟨-, htests⟩ := hr
    rcases hw : args.lookup "tests" with - | w <;> rw [hw] at htests
    · exact absurd htests (by simp)
    · cases w with
      | arr xs => exact createTestSuite_success now args xs hw
      | null => exact absurd htests (by simp [typeOk])
      | bool b => exact absurd htests (by simp [typeOk])
      | num n => exact absurd htests (by simp [typeOk])
      | str smm => exact absurd htests (by simp [typeOk])
      | obj fs => exact absurd htests (by simp [typeOk])
  · -- schedule_test_execution
    obtain ⟨-, hsch⟩ := hr
    rcases hw : args.lookup "schedule" with - | w <;> rw [hw] at hsch
    · exact absurd hsch (by simp)
    · cases w with
      | obj fs => exact scheduleTestExecution_success now args fs hw
      | null => exact absurd hsch (by simp [typeOk])
      | bool b => exact absurd hsch (by simp [typeOk])
      | num n => exact absurd hsch (by simp [typeOk])
      | str smm => exact absurd hsch (by simp [typeOk])
      | arr xs => exact absurd hsch (by simp [typeOk])
  · exact pure_tool_status_success now "generate_test_documentation" args (by simp)
  · exact pure_tool_status_success now "debug_test_failure" args (by simp)

/-- Witness for C4: `generate_test_data` invoked with all three required
fields present and correctly typed. -/
theorem required_ok_implies_success_witness :
    lookupJ "status" (handleToolCall "2025-01-01T00:00:00.000Z" "generate_test_data"
      [("dataType", .str "csv"), ("schema", .obj [("col", .str "string")]),
       ("recordCount", .num 25)]) = some (.str "success") :=
  required_ok_implies_success "2025-01-01T00:00:00.000Z"
    ⟨"generate_test_data",
     "Generate test data for UFT data-driven testing",
     [("dataType", .sEnum ["excel", "csv", "xml", "database"]),
      ("schema", .sObject), ("recordCount", .sNumber)]⟩
    (by simp [UFT_TOOLS])
    [("dataType", .str "csv"), ("schema", .obj [("col", .str "string")]),
     ("recordCount", .num 25)]
    (by decide)

/-- C1 counterexample: `execute_uft_test` invoked with the empty mapping —
which omits its sole required field `testPath` — returns `status:"success"`,
not `status:"error"`, so omitting a required field does not produce an error
result. -/
theorem missing_required_field_not_error :
    lookupJ "status" (handleToolCall "2025-01-01T00:00:00.000Z" "execute_uft_test" []) =
      some (.str "success") ∧
    lookupJ "status" (handleToolCall "2025-01-01T00:00:00.000Z" "execute_uft_test" []) ≠
      some (.str "error") := by
  exact ⟨rfl, by decide⟩

/-- C1 (amended): the dispatcher performs no required-field validation.
Omitting a required field yields `status:"error"` only for the three handlers
that dereference the missing value — `create_uft_test` without `actions`,
`create_test_suite` without `tests`, `schedule_test_execution` without
`schedule` — and then the message is the runtime `TypeError` text naming the
dereferenced property (`forEach`, `length`, `type`), not the omitted field.
Every other omission yields `status:"success"`: the seven remaining tools
succeed on every mapping, and the three above succeed when only their other
required field is missing. -/
theorem missing_required_field_behavior (now : String) (args : List (String × Json)) :
    (args.lookup "actions" = none →
      handleToolCall now "create_uft_test" args =
        .obj [("status", .str "error"),
              ("message", .str "Cannot read properties of undefined (reading 'forEach')")]) ∧
    (args.lookup "tests" = none →
      handleToolCall now "create_test_suite" args =
        .obj [("status", .str "error"),
              ("message", .str "Cannot read properties of undefined (reading 'length')")]) ∧
    (args.lookup "schedule" = none →
      handleToolCall now "schedule_test_execution" args =
        .obj [("status", .str "error"),
              ("message", .str "Cannot read properties of undefined (reading 'type')")]) ∧
    (∀ name, name ∈ ["execute_uft_test", "analyze_test_results", "manage_object_repository",
        "generate_test_data", "capture_application_objects", "generate_test_documentation",
        "debug_test_failure"] →
      lookupJ "status" (handleToolCall now name args) = some (.str "success")) ∧
    (∀ acts, args.lookup "actions" = some (.arr acts) → (∀ a ∈ acts, isObjJ a = true) →
      lookupJ "status" (handleToolCall now "create_uft_test" args) = some (.str "success")) ∧
    (∀ xs, args.lookup "tests" = some (.arr xs) →
      lookupJ "status" (handleToolCall now "create_test_suite" args) = some (.str "success")) ∧
    (∀ fs, args.lookup "schedule" = some (.obj fs) →
      lookupJ "status" (handleToolCall now "schedule_test_execution" args) = some (.str "success")) := by
  refine ⟨?_, ?_, ?_,
    fun name hn => pure_tool_status_success now name args hn,
    fun acts ha hobj => createUftTest_success now args acts ha hobj,
    fun xs ht => createTestSuite_success now args xs ht,
    fun fs hs => scheduleTestExecution_success now args fs hs⟩
  · intro h
    show (match dispatch now "create_uft_test" args with
      | .ok r => r
      | .error m => Json.obj [("status", .str "error"), ("message", .str m)]) = _
    have hd : dispatch now "create_uft_test" args = createUftTest now args := rfl
    rw [hd]
    unfold createUftTest generateTestScript
    rw [h]
  · intro h
    show (match dispatch now "create_test_suite" args with
      | .ok r => r
      | .error m => Json.obj [("status", .str "error"), ("message", .str m)]) = _
    have hd : dispatch now "create_test_suite" args = createTestSuite args := rfl
    rw [hd]
    unfold createTestSuite
    rw [h]
    rfl
  · intro h
    show (match dispatch now "schedule_test_execution" args with
      | .ok r => r
      | .error m => Json.obj [("status", .str "error"), ("message", .str m)]) = _
    have hd : dispatch now "schedule_test_execution" args = scheduleTestExecution args := rfl
    rw [hd]
    unfold scheduleTestExecution
    rw [h]
    rfl

/-- Witness for the amended C1 at the empty mapping (which omits every
required field) and at mappings keeping only the dereferenced field. -/
theorem missing_required_field_behavior_witness :
    handleToolCall "T" "create_uft_test" [] =
      .obj [("status", .str "error"),
            ("message", .str "Cannot read properties of undefined (reading 'forEach')")] ∧
    handleToolCall "T" "create_test_suite" [] =
      .obj [("status", .str "error"),
            ("message", .str "Cannot read properties of undefined (reading 'length')")] ∧
    handleToolCall "T" "schedule_test_execution" [] =
      .obj [("status", .str "error"),
            ("message", .str "Cannot read properties of undefined (reading 'type')")] ∧
    lookupJ "status" (handleToolCall "T" "analyze_test_results" []) = some (.str "success") ∧
    lookupJ "status" (handleToolCall "T" "create_uft_test"
      [("actions", .arr [.obj [("type", .str "click")]])]) = some (.str "success") ∧
    lookupJ "status" (handleToolCall "T" "create_test_suite" [("tests", .arr [])]) =
      some (.str "success") ∧
    lookupJ "status" (handleToolCall "T" "schedule_test_execution"
      [("schedule", .obj [("type", .str "daily"), ("time", .str "02:00")])]) =
      some (.str "success") :=
  ⟨(missing_required_field_behavior "T" []).1 rfl,
   (missing_required_field_behavior "T" []).2.1 rfl,
   (missing_required_field_behavior "T" []).2.2.1 rfl,
   (missing_required_field_behavior "T" []).2.2.2.1 "analyze_test_results" (by decide),
   (missing_required_field_behavior "T"
      [("actions", .arr [.obj [("type", .str "click")]])]).2.2.2.2.1
     [.obj [("type", .str "click")]] rfl (by decide),
   (missing_required_field_behavior "T" [("tests", .arr [])]).2.2.2.2.2.1 [] rfl,
   (missing_required_field_behavior "T"
      [("schedule", .obj [("type", .str "daily"), ("time", .str "02:00")])]).2.2.2.2.2.2
     [("type", .str "daily"), ("time", .str "02:00")] rfl⟩

/-- Every keyword other than `MCP_SetContext` leaves the context slot
unchanged. -/
theorem stepCtx_preserves (ctx : Option Json) (c : KwCall) (h : c.isSetContext = false) :
    stepCtx ctx c = ctx := by
  cases c with
  | ping args now => simp only [stepCtx, MCP_Ping]
  | sendRequest args now rand =>
    simp only [stepCtx, MCP_SendRequest]
    split <;> rfl
  | validateResponse args =>
    simp only [stepCtx, MCP_ValidateResponse]
    split <;> rfl
  | setContext args now => simp [KwCall.isSetContext] at h
  | getContext => simp only [stepCtx, MCP_GetContext]
  | executePrompt args now rand =>
    simp only [stepCtx, MCP_ExecutePrompt]
    split <;> rfl

/-- A run containing no `MCP_SetContext` call leaves the context slot where it
started. -/
theorem runCtx_no_set (calls : List KwCall) (ctx : Option Json)
    (h : ∀ c ∈ calls, c.isSetContext = false) : runCtx ctx calls = ctx := by
  induction calls generalizing ctx with
  | nil => rfl
  | cons c rest ih =>
    simp only [runCtx]
    rw [stepCtx_preserves ctx c (h c (by simp))]
    exact ih ctx (fun x hx => h x (by simp [hx]))

/-- C7: in any run, `MCP_GetContext` invoked after the test-start reset and
before any `MCP_SetContext` call returns the fixed sentinel context
`{id:"none", type:"empty"}` (wrapped in the keyword's `success` mapping). -/
theorem getContext_before_set_returns_sentinel (prior : Option Json) (calls : List KwCall)
    (h : ∀ c ∈ calls, c.isSetContext = false) :
    (MCP_GetContext (runCtx (onTestStart prior) calls)).ret =
      .obj [("success", .bool true),
            ("context", .obj [("id", .str "none"), ("type", .str "empty")])] := by
  rw [runCtx_no_set calls (onTestStart prior) h]
  rfl

/-- Witness for C7: a reset followed by a ping and a validation, then
`MCP_GetContext`. -/
theorem getContext_before_set_returns_sentinel_witness :
    (MCP_GetContext (runCtx (onTestStart (some (.obj [("id", .str "stale")])))
        [.ping (some (.obj [("message", .str "hi")])) "T1",
         .validateResponse (some (.obj [("response", .obj [("status", .num 200)])]))])).ret =
      .obj [("success", .bool true),
            ("context", .obj [("id", .str "none"), ("type", .str "empty")])] :=
  getContext_before_set_returns_sentinel (some (.obj [("id", .str "stale")]))
    [.ping (some (.obj [("message", .str "hi")])) "T1",
     .validateResponse (some (.obj [("response", .obj [("status", .num 200)])]))]
    (by decide)

/-- C8 counterexample: for the falsy context value `false`, `MCP_SetContext`
rejects the write (`{success:false, error:"Missing context"}`), and the
immediately following `MCP_GetContext` returns the sentinel, not `false` — so
the round-trip does not hold for every context value. -/
theorem setContext_roundtrip_fails_on_falsy :
    (MCP_SetContext (some (.obj [("context", .bool false)])) none "T").ret =
      .obj [("success", .bool false), ("error", .str "Missing context")] ∧
    lookupJ "context"
        ((MCP_GetContext ((MCP_SetContext (some (.obj [("context", .bool false)])) none "T").ctx)).ret) =
      some (.obj [("id", .str "none"), ("type", .str "empty")]) ∧
    lookupJ "context"
        ((MCP_GetContext ((MCP_SetContext (some (.obj [("context", .bool false)])) none "T").ctx)).ret) ≠
      some (.bool false) :=
  ⟨rfl, rfl, by decide⟩

/-- C8 (amended): for every truthy context value `v`, `MCP_SetContext` with
`{context: v}` followed immediately by `MCP_GetContext` returns `v` unchanged,
the write overwriting whatever the slot held before (last write wins); falsy
`v` is rejected and leaves the slot untouched. -/
theorem setContext_getContext_roundtrip (v : Json) (ctx : Option Json) (now : String)
    (hv : jsTruthy v = true) :
    (MCP_SetContext (some (.obj [("context", v)])) ctx now).ret =
      .obj [("success", .bool true), ("context", v)] ∧
    (MCP_SetContext (some (.obj [("context", v)])) ctx now).ctx = some v ∧
    (MCP_GetContext ((MCP_SetContext (some (.obj [("context", v)])) ctx now).ctx)).ret =
      .obj [("success", .bool true), ("context", v)] := by
  have hguard : (!(jsTruthyOpt (some (Json.obj [("context", v)]))) ||
      !(jsTruthyOpt (jsGetOpt (some (Json.obj [("context", v)])) "context"))) = false := by
    show (!true || !(jsTruthy v)) = false
    rw [hv]
    rfl
  refine ⟨?_, ?_, ?_⟩
  · unfold MCP_SetContext
    rw [hguard]
    simp
    rfl
  · unfold MCP_SetContext
    rw [hguard]
    simp
    rfl
  · unfold MCP_SetContext
    rw [hguard]
    simp only [Bool.false_eq_true, if_false]
    show (MCP_GetContext (some ((jsGetOpt (some (Json.obj [("context", v)])) "context").getD .null))).ret = _
    show (MCP_GetContext (some v)).ret = _
    simp [MCP_GetContext, jsOrJ, jsTruthyOpt, hv]

/-- Witness for the amended C8 at `v = {id:"A", type:"T"}` over a non-empty
prior context. -/
theorem setContext_getContext_roundtrip_witness :
    jsTruthy (.obj [("id", .str "A"), ("type", .str "T")]) = true ∧
    (MCP_GetContext ((MCP_SetContext
        (some (.obj [("context", .obj [("id", .str "A"), ("type", .str "T")])]))
        (some (.obj [("id", .str "old")])) "T").ctx)).ret =
      .obj [("success", .bool true),
            ("context", .obj [("id", .str "A"), ("type", .str "T")])] :=
  ⟨by decide,
   (setContext_getContext_roundtrip (.obj [("id", .str "A"), ("type", .str "T")])
      (some (.obj [("id", .str "old")])) "T" (by decide)).2.2⟩

/-- C5 counterexample: `MCP_ValidateResponse` invoked with a well-formed
argument mapping (`{response:{status:200}}`) returns the bare
`validationResult` mapping `{isValid, errors, warnings}` — it carries no
`success` field at all. -/
theorem validateResponse_lacks_success_field :
    lookupJ "success"
        ((MCP_ValidateResponse (some (.obj [("response", .obj [("status", .num 200)])])) none).ret) =
      none ∧
    (MCP_ValidateResponse (some (.obj [("response", .obj [("status", .num 200)])])) none).ret =
      .obj [("isValid", .bool true), ("errors", .arr []), ("warnings", .arr [])] :=
  ⟨rfl, rfl⟩

/-- C5 (amended): five of the six keywords (`MCP_Ping`, `MCP_SendRequest`,
`MCP_SetContext`, `MCP_GetContext`, `MCP_ExecutePrompt`) return a mapping with
a boolean `success` field for every argument; `MCP_ValidateResponse` does so
only on its missing-`response` error path, and otherwise returns a mapping
with a boolean `isValid` field (plus `errors`/`warnings`) instead. -/
theorem keywords_success_field (args ctx : Option Json) (now rand : String) :
    hasBoolField "success" (MCP_Ping args ctx now).ret = true ∧
    hasBoolField "success" (MCP_SendRequest args ctx now rand).ret = true ∧
    hasBoolField "success" (MCP_SetContext args ctx now).ret = true ∧
    hasBoolField "success" (MCP_GetContext ctx).ret = true ∧
    hasBoolField "success" (MCP_ExecutePrompt args ctx now rand).ret = true ∧
    (hasBoolField "success" (MCP_ValidateResponse args ctx).ret = true ∨
     hasBoolField "isValid" (MCP_ValidateResponse args ctx).ret = true) := by
  refine ⟨rfl, ?_, ?_, rfl, ?_, ?_⟩
  · unfold MCP_SendRequest
    split <;> rfl
  · unfold MCP_SetContext
    split <;> rfl
  · unfold MCP_ExecutePrompt
    split <;> rfl
  · unfold MCP_ValidateResponse
    split
    · exact Or.inl rfl
    · exact Or.inr rfl

/-- C10: `MCP_SetContext` returns `{success:false, error:"Missing context"}`
exactly when no argument mapping is supplied or the mapping's `context` field
is falsy (absent, `null`, `false`, `0`, or `""`); in particular the truthy
empty object `{}` is accepted, stored in the context slot, and echoed back
with `success:true`. -/
theorem setContext_missing_context_iff (m : Option (List (String × Json)))
    (ctx : Option Json) (now : String) :
    ((MCP_SetContext (m.map Json.obj) ctx now).ret =
        .obj [("success", .bool false), ("error", .str "Missing context")] ↔
      (match m with
       | none => True
       | some fields => jsTruthyOpt (fields.lookup "context") = false)) ∧
    ((MCP_SetContext (m.map Json.obj) ctx now).ret =
        .obj [("success", .bool false), ("error", .str "Missing context")] →
      (MCP_SetContext (m.map Json.obj) ctx now).ctx = ctx) ∧
    ((MCP_SetContext (some (.obj [("context", .obj [])])) ctx now).ret =
        .obj [("success", .bool true), ("context", .obj [])] ∧
     (MCP_SetContext (some (.obj [("context", .obj [])])) ctx now).ctx = some (.obj [])) := by
  refine ⟨?_, ?_, rfl, rfl⟩
  · cases m with
    | none => simp [MCP_SetContext, jsTruthyOpt]
    | some fields =>
      by_cases hc : jsTruthyOpt (fields.lookup "context") = true
      · have hguard : (!(jsTruthyOpt (some (Json.obj fields))) ||
            !(jsTruthyOpt (jsGetOpt (some (Json.obj fields)) "context"))) = false := by
          show (!true || !(jsTruthyOpt (fields.lookup "context"))) = false
          rw [hc]
          rfl
        unfold MCP_SetContext
        simp only [Option.map_some']
        rw [hguard]
        simp [hc]
      · have hguard : (!(jsTruthyOpt (some (Json.obj fields))) ||
            !(jsTruthyOpt (jsGetOpt (some (Json.obj fields)) "context"))) = true := by
          show (!true || !(jsTruthyOpt (fields.lookup "context"))) = true
          simp only [Bool.not_eq_true] at hc
          rw [hc]
          rfl
        unfold MCP_SetContext
        simp only [Option.map_some']
        rw [hguard]
        simp only [Bool.not_eq_true] at hc
        simp [hc]
  · cases m with
    | none => intro _; rfl
    | some fields =>
      by_cases hc : jsTruthyOpt (fields.lookup "context") = true
      · have hguard : (!(jsTruthyOpt (some (Json.obj fields))) ||
            !(jsTruthyOpt (jsGetOpt (some (Json.obj fields)) "context"))) = false := by
          show (!true || !(jsTruthyOpt (fields.lookup "context"))) = false
          rw [hc]
          rfl
        unfold MCP_SetContext
        simp only [Option.map_some']
        rw [hguard]
        simp
      · have hguard : (!(jsTruthyOpt (some (Json.obj fields))) ||
            !(jsTruthyOpt (jsGetOpt (some (Json.obj fields)) "context"))) = true := by
          show (!true || !(jsTruthyOpt (fields.lookup "context"))) = true
          simp only [Bool.not_eq_true] at hc
          rw [hc]
          rfl
        unfold MCP_SetContext
        simp only [Option.map_some']
        rw [hguard]
        simp

/-- Witness for C10: a mapping without `context` is rejected and leaves the
slot untouched; the empty object `{}` is stored. -/
theorem setContext_missing_context_iff_witness :
    (MCP_SetContext (some (.obj [("other", .num 1)])) (some (.str "keep")) "T").ret =
      .obj [("success", .bool false), ("error", .str "Missing context")] ∧
    (MCP_SetContext (some (.obj [("other", .num 1)])) (some (.str "keep")) "T").ctx =
      some (.str "keep") ∧
    (MCP_SetContext (some (.obj [("context", .obj [])])) (some (.str "keep")) "T").ctx =
      some (.obj []) := by
  have h := setContext_missing_context_iff (some [("other", .num 1)]) (some (.str "keep")) "T"
  have herr := h.1.mpr (by decide)
  exact ⟨herr, h.2.1 herr,
    (setContext_missing_context_iff (some [("context", .obj [])]) (some (.str "keep")) "T").2.2.2⟩
